import Mathlib

/-!
Verification of the spreadsheet ingestion pipeline (Bull queue worker,
extraction engine, progress tracking, retry endpoint) against its
natural-language specification.

Shallow embedding conventions:
* A spreadsheet, as returned by `xlsx.utils.sheet_to_json(ws, { header: 1 })`,
  is a `List (List JSValue)`: a list of rows, each row a list of cell values.
  Reading past the end of a row yields `JSValue.undef`, matching JavaScript
  array indexing.
* JavaScript cell values are modelled by `JSValue`: `undef` (undefined),
  `jnull` (null), strings, numbers (modelled as `Int`; the claims under
  study only exercise integral values), booleans, and `date` (a Date
  object, carrying an abstract timestamp).
* Database effects of the worker (`prisma.fileProcessing.update`,
  `prisma.processedData.createMany`) are modelled by explicit state passing
  over a `Store` holding the single job row under study and its
  `processedData` table rows.  `createMany` is a plain insert (the sources
  show a surrogate-key `id` per record and no unique constraint).
* The periodic progress checkpoint (`update` of `processedRows` every 10
  rows) can fail; this is made explicit by the oracle parameter
  `cpFail : Option String`: `none` means every checkpoint write succeeds,
  `some msg` means the first attempted checkpoint write throws an error
  whose message is `msg`.
-/

/-- JavaScript values that can appear as a spreadsheet cell after
`sheet_to_json`: `undefined`, `null`, string, number, boolean, or a
`Date` object. -/
inductive JSValue where
  | undef : JSValue
  | jnull : JSValue
  | str : String → JSValue
  | num : Int → JSValue
  | bool : Bool → JSValue
  | date : Nat → JSValue
deriving DecidableEq, Repr

/-- JavaScript `typeof`: note that both `null` and `Date` objects give
`"object"`; there is no `"date"` result. -/
def jsTypeof : JSValue → String
  | .undef => "undefined"
  | .jnull => "object"
  | .str _ => "string"
  | .num _ => "number"
  | .bool _ => "boolean"
  | .date _ => "object"

/-- JavaScript `String(value)` conversion, restricted to the values the
model supports.  `String(0) = "0"`, `String(false) = "false"`; the
stringification of a `Date` is locale-dependent and is abstracted. -/
def jsToString : JSValue → String
  | .undef => "undefined"
  | .jnull => "null"
  | .str s => s
  | .num n => toString n
  | .bool b => cond b "true" "false"
  | .date d => "Date(" ++ toString d ++ ")"

/-- The guard of `JobQueue.ts` line 135:
`value !== undefined && value !== null && value !== ''`
(strict inequality, so `0`, `false` and `" "` all pass). -/
def materialize (v : JSValue) : Bool :=
  v != JSValue.undef && v != JSValue.jnull && v != JSValue.str ""

/-- Job status enumeration from `FileProcessing.ts`. -/
inductive FileProcessingStatus where
  | PENDING | IN_PROGRESS | COMPLETED | FAILED | CANCELLED
deriving DecidableEq, Repr

/-- `FILE_MESSAGES.NO_DATA_FOUND` from `FileProcessing.ts`. -/
def NO_DATA_FOUND : String := "No data found in the Excel file"

/-- One row of the `processedData` table, as built at
`JobQueue.ts` lines 136-142. -/
structure ProcessedRecord where
  fileProcessingId : Nat
  rowNumber : Nat
  columnName : String
  value : String
  dataType : String
deriving DecidableEq, Repr

/-- The record pushed for cell `(rowIndex, colIndex)`
(`JobQueue.ts` lines 136-142): `rowNumber = rowIndex + 1`, the column name
is header cell `colIndex` (asserted `as string[]` in the source; for a
string header cell `jsToString` is the identity), the value is
`String(value)` and the type tag is `typeof value`. -/
def mkRec (fid : Nat) (headers : List JSValue) (rowIndex : Nat)
    (row : List JSValue) (colIndex : Nat) : ProcessedRecord :=
  { fileProcessingId := fid
    rowNumber := rowIndex + 1
    columnName := jsToString (headers.getD colIndex JSValue.undef)
    value := jsToString (row.getD colIndex JSValue.undef)
    dataType := jsTypeof (row.getD colIndex JSValue.undef) }

/-- The inner column loop of `JobQueue.ts` lines 131-144: for each column
index of the header, push a record iff the cell passes the blank guard. -/
def rowRecords (fid : Nat) (headers : List JSValue) (rowIndex : Nat)
    (row : List JSValue) : List ProcessedRecord :=
  (List.range headers.length).filterMap fun colIndex =>
    if materialize (row.getD colIndex JSValue.undef) then
      some (mkRec fid headers rowIndex row colIndex)
    else none

/-- The outer row loop of `JobQueue.ts` lines 128-144, running over the
data rows (`rowIndex` starting at 1, row 0 being the header). -/
def extractRows (fid : Nat) (headers : List JSValue) (rowIndex : Nat) :
    List (List JSValue) → List ProcessedRecord
  | [] => []
  | row :: rest =>
      rowRecords fid headers rowIndex row ++
        extractRows fid headers (rowIndex + 1) rest

/-- The pure extraction performed by `handleExcelJob` on parsed sheet
data: headers are row 0, records come from rows 1 onward. -/
def extractRecords (fid : Nat) (data : List (List JSValue)) :
    List ProcessedRecord :=
  extractRows fid (data.headD []) 1 data.tail

/-- The number of non-blank cells among the `N × |H|` cells of the data
rows.  This definition follows the specification's wording (§8, first
property) and is compared against the code's extraction. -/
def nonBlankCount (data : List (List JSValue)) : Nat :=
  (data.tail.map fun row =>
    ((List.range (data.headD []).length).filter fun j =>
      materialize (row.getD j JSValue.undef)).length).sum

/-- The job row of the `fileProcessing` table (the fields the worker and
the retry endpoint touch). -/
structure JobRow where
  status : FileProcessingStatus
  totalRows : Option Nat := none
  processedRows : Option Nat := none
  errorMessage : Option String := none
  completedAt : Option Nat := none
  retryCount : Nat := 0
deriving DecidableEq, Repr

/-- The database state relevant to one job: its `fileProcessing` row and
its `processedData` rows. -/
structure Store where
  job : JobRow
  records : List ProcessedRecord
deriving DecidableEq, Repr

/-- Fuel-indexed form of the batch-insert loop: each step inserts one
batch of at most 100 records.  The fuel only bounds the number of
iterations (one unit per batch, and `pd.length` units always suffice);
should it run out, the remainder is flushed in a single final call, so
every branch appends its input. -/
def insertBatchedFuel : Nat → List ProcessedRecord → List ProcessedRecord →
    List ProcessedRecord
  | _, tbl, [] => tbl
  | 0, tbl, pd => tbl ++ pd
  | fuel + 1, tbl, r :: rest =>
      insertBatchedFuel fuel (tbl ++ (r :: rest).take 100)
        ((r :: rest).drop 100)

/-- The batch-insert loop of `JobQueue.ts` lines 157-164:
`createMany` on successive slices of 100 records.  `createMany` is a
plain insert, so each batch is appended to the table. -/
def insertBatched (tbl : List ProcessedRecord) (pd : List ProcessedRecord) :
    List ProcessedRecord :=
  insertBatchedFuel pd.length tbl pd

/-- The stateful part of the row loop (`JobQueue.ts` lines 146-154):
`processedCount` is incremented per data row, and every 10 rows a
checkpoint write of `processedRows` is attempted.  `remaining` counts the
data rows not yet iterated, `count` is `processedCount` so far, `pr` the
current `processedRows` column.  Returns the final `processedRows` column
and `some msg` when a checkpoint write threw `msg` (aborting the loop),
`none` when the loop finished. -/
def progressLoop (cpFail : Option String) :
    Nat → Nat → Option Nat → Option Nat × Option String
  | 0, _, pr => (pr, none)
  | m + 1, count, pr =>
      let c := count + 1
      if c % 10 = 0 then
        match cpFail with
        | some msg => (pr, some msg)
        | none => progressLoop cpFail m c (some c)
      else progressLoop cpFail m c pr

/-- `BullJobQueue.handleExcelJob` (`JobQueue.ts` lines 89-192), with the
already-parsed sheet passed in place of `xlsx.readFile`/`sheet_to_json`.
`fid` is the job's `fileProcessingId`, `rc` the delivery's `retryCount`,
`now` the completion timestamp, `cpFail` the checkpoint-write oracle.
Returns the database state after the run together with the handler's
result (`.ok processedCount`, or `.error msg` re-thrown to the queue). -/
def handleExcelJob (fid rc now : Nat) (cpFail : Option String)
    (data : List (List JSValue)) (st : Store) : Store × Except String Nat :=
  let st1 : Store :=
    { st with job := { st.job with status := .IN_PROGRESS, retryCount := rc } }
  if data.length = 0 then
    let failJob : JobRow := { st1.job with status := .FAILED, errorMessage := some NO_DATA_FOUND }
    ({ st1 with job := failJob }, .error NO_DATA_FOUND)
  else
    let totalRows := data.length - 1
    let st2 : Store := { st1 with job := { st1.job with totalRows := some totalRows } }
    match progressLoop cpFail totalRows 0 st2.job.processedRows with
    | (pr, some msg) =>
        let failJob : JobRow := { st2.job with processedRows := pr, status := .FAILED, errorMessage := some msg }
        ({ st2 with job := failJob }, .error msg)
    | (pr, none) =>
        let st3 : Store := { st2 with job := { st2.job with processedRows := pr }, records := insertBatched st2.records (extractRecords fid data) }
        let doneJob : JobRow := { st3.job with status := .COMPLETED, processedRows := some totalRows, completedAt := some now }
        ({ st3 with job := doneJob }, .ok totalRows)

/-- Outcome of `POST /files/:id/retry`. -/
structure RetryResult where
  store : Store
  enqueued : Bool
  error : Option String
deriving DecidableEq, Repr

/-- The retry endpoint (`FileController.retryFileProcessing` lines
195-242 composed with `FileProcessingService.clearProcessedData` lines
265-291 and `FileProcessingService.retryFileProcessing` lines 296-337),
for a job that exists and belongs to the caller: reject unless the
status is `FAILED`; otherwise delete the job's `processedData` rows,
reset the counters and status, and re-enqueue. -/
def retryFileProcessingEndpoint (st : Store) : RetryResult :=
  if st.job.status ≠ FileProcessingStatus.FAILED then
    { store := st, enqueued := false,
      error := some "File can only be retried if it failed" }
  else
    let cleared : Store := { st with records := [] }
    let resetJob : JobRow := { cleared.job with status := .PENDING, errorMessage := none, totalRows := none, processedRows := none, completedAt := none }
    { store := { cleared with job := resetJob }, enqueued := true, error := none }

/-- The database state of a freshly created job
(`FileProcessingService.uploadAndProcessFile` lines 44-54): status
`PENDING`, all nullable columns null, no extracted records. -/
def pendingStore : Store :=
  { job := { status := FileProcessingStatus.PENDING }, records := [] }


lemma filterMap_if_length {α β : Type} (p : α → Bool) (g : α → β)
    (l : List α) :
    (l.filterMap fun a => if p a then some (g a) else none).length =
      (l.filter p).length := by
  induction l with
  | nil => rfl
  | cons x xs ih =>
      by_cases h : p x
      · simp [List.filterMap_cons, List.filter_cons, h, ih]
      · simp [List.filterMap_cons, List.filter_cons, h, ih]

lemma rowRecords_length (fid : Nat) (headers : List JSValue)
    (rowIndex : Nat) (row : List JSValue) :
    (rowRecords fid headers rowIndex row).length =
      ((List.range headers.length).filter fun j =>
        materialize (row.getD j JSValue.undef)).length :=
  filterMap_if_length _ _ _

lemma extractRows_length (fid : Nat) (headers : List JSValue) :
    ∀ (rows : List (List JSValue)) (rowIndex : Nat),
    (extractRows fid headers rowIndex rows).length =
      (rows.map fun row =>
        ((List.range headers.length).filter fun j =>
          materialize (row.getD j JSValue.undef)).length).sum := by
  intro rows
  induction rows with
  | nil => intro rowIndex; rfl
  | cons row rest ih =>
      intro rowIndex
      simp [extractRows, rowRecords_length, ih]

/-- Every record produced by `extractRows` comes from some row and some
in-header column whose cell passes the blank guard. -/
lemma extractRows_mem (fid : Nat) (headers : List JSValue) :
    ∀ (rows : List (List JSValue)) (rowIndex : Nat)
      (r : ProcessedRecord), r ∈ extractRows fid headers rowIndex rows →
    ∃ k, k < rows.length ∧ ∃ j, j < headers.length ∧
      materialize ((rows.getD k []).getD j JSValue.undef) = true ∧
      r = mkRec fid headers (rowIndex + k) (rows.getD k []) j := by
  intro rows
  induction rows with
  | nil => intro rowIndex r hr; simp [extractRows] at hr
  | cons row rest ih =>
      intro rowIndex r hr
      simp only [extractRows, List.mem_append] at hr
      rcases hr with hr | hr
      · unfold rowRecords at hr
        rw [List.mem_filterMap] at hr
        obtain ⟨j, hj, hjr⟩ := hr
        rw [List.mem_range] at hj
        by_cases hm : materialize (row.getD j JSValue.undef)
        · rw [if_pos hm] at hjr
          refine ⟨0, by simp, j, hj, ?_, ?_⟩
          · simpa using hm
          · simpa using (Option.some.inj hjr).symm
        · rw [if_neg hm] at hjr
          exact Option.noConfusion hjr
      · obtain ⟨k, hk, j, hj, hm, hr⟩ := ih (rowIndex + 1) r hr
        refine ⟨k + 1, by simpa using hk, j, hj, ?_, ?_⟩
        · simpa using hm
        · simp only [List.getD_cons_succ]
          have e : rowIndex + (k + 1) = rowIndex + 1 + k := by omega
          rw [e]
          exact hr

lemma insertBatchedFuel_eq : ∀ (fuel : Nat) (tbl pd : List ProcessedRecord),
    insertBatchedFuel fuel tbl pd = tbl ++ pd := by
  intro fuel
  induction fuel with
  | zero =>
      intro tbl pd
      cases pd with
      | nil => simp [insertBatchedFuel]
      | cons r rest => rfl
  | succ m ih =>
      intro tbl pd
      cases pd with
      | nil => simp [insertBatchedFuel]
      | cons r rest =>
          rw [insertBatchedFuel, ih, List.append_assoc,
            List.take_append_drop]

/-- `createMany` in batches of 100 inserts exactly the prepared records,
in order. -/
lemma insertBatched_eq (tbl pd : List ProcessedRecord) :
    insertBatched tbl pd = tbl ++ pd :=
  insertBatchedFuel_eq pd.length tbl pd

/-- When every checkpoint write succeeds the loop never aborts. -/
lemma progressLoop_none : ∀ (m count : Nat) (pr : Option Nat),
    (progressLoop none m count pr).2 = none := by
  intro m
  induction m with
  | zero => intro count pr; rfl
  | succ k ih =>
      intro count pr
      rw [progressLoop]
      by_cases h : (count + 1) % 10 = 0
      · simp only [h, if_true]
        exact ih _ _
      · simp only [h, if_false]
        exact ih _ _

/-- When the checkpoint write throws and enough rows remain for the
count to reach the next multiple of 10, the loop aborts with the thrown
message and `processedRows` untouched. -/
lemma progressLoop_fail (msg : String) :
    ∀ (k m count : Nat) (pr : Option Nat), count + k = 10 → 0 < k →
    progressLoop (some msg) (m + k) count pr = (pr, some msg) := by
  intro k
  induction k with
  | zero => intro m count pr _ hk; omega
  | succ j ih =>
      intro m count pr hck _
      rw [show m + (j + 1) = (m + j) + 1 by omega, progressLoop]
      by_cases h : (count + 1) % 10 = 0
      · simp only [h, if_true]
      · simp only [h, if_false]
        have hj : 0 < j := by
          rcases Nat.eq_zero_or_pos j with hj0 | hj0
          · exfalso
            apply h
            omega
          · exact hj0
        exact ih m (count + 1) pr (by omega) hj

/-- A cell that passes the blank guard has a `typeof` tag in the
four-element set actually reachable in the code. -/
lemma materialize_jsTypeof (v : JSValue) (h : materialize v = true) :
    jsTypeof v ∈ (["string", "number", "boolean", "object"] : List String) := by
  cases v with
  | undef => simp [materialize] at h
  | jnull => simp [jsTypeof]
  | str s => simp [jsTypeof]
  | num n => simp [jsTypeof]
  | bool b => simp [jsTypeof]
  | date d => simp [jsTypeof]

/-- C5: for every spreadsheet with header row `H` and data rows, the
extraction emits records only for non-blank cells among the `N × |H|`
cells (every emitted record originates from a data row `k` and a header
column `j` whose cell passes the blank guard), and the total number of
emitted records equals the number of non-blank cells among the
`N × |H|` cells. -/
theorem c5_extraction_counts_nonblank_cells (fid : Nat)
    (data : List (List JSValue)) :
    (extractRecords fid data).length = nonBlankCount data ∧
    ∀ r ∈ extractRecords fid data,
      ∃ k, k < data.tail.length ∧ ∃ j, j < (data.headD []).length ∧
        materialize ((data.tail.getD k []).getD j JSValue.undef) = true ∧
        r = mkRec fid (data.headD []) (1 + k) (data.tail.getD k []) j := by
  constructor
  · exact extractRows_length fid (data.headD []) data.tail 1
  · intro r hr
    exact extractRows_mem fid (data.headD []) data.tail 1 r hr

/-- Witness: the theorem applied to the sheet with header `[A]` and one
data row `[x]`, and its single emitted record. -/
theorem c5_extraction_counts_nonblank_cells_witness :
    ∃ k, k < ([[JSValue.str "A"], [JSValue.str "x"]] : List (List JSValue)).tail.length ∧
      ∃ j, j < (([[JSValue.str "A"], [JSValue.str "x"]] : List (List JSValue)).headD []).length ∧
        materialize ((([[JSValue.str "A"], [JSValue.str "x"]] : List (List JSValue)).tail.getD k []).getD j JSValue.undef) = true ∧
        ProcessedRecord.mk 7 2 "A" "x" "string" =
          mkRec 7 (([[JSValue.str "A"], [JSValue.str "x"]] : List (List JSValue)).headD [])
            (1 + k) (([[JSValue.str "A"], [JSValue.str "x"]] : List (List JSValue)).tail.getD k []) j :=
  (c5_extraction_counts_nonblank_cells 7 [[JSValue.str "A"], [JSValue.str "x"]]).2
    (ProcessedRecord.mk 7 2 "A" "x" "string") (by decide)

/-- C6 counterexample: a temporal (Date) cell is materialized with
`dataType = "object"` — the JavaScript `typeof` of a `Date` — not
`"date"`, and `"object"` lies outside the claimed closed set
`{string, number, boolean, date, other}`. -/
theorem c6_counterexample :
    (extractRecords 1 [[JSValue.str "When"], [JSValue.date 0]]).map
        (fun r => r.dataType) = ["object"] ∧
    ("object" : String) ∉
      (["string", "number", "boolean", "date", "other"] : List String) := by
  constructor
  · rfl
  · decide

/-- C6 amended: every emitted record's `dataType` is the JavaScript
`typeof` of the cell's native value and belongs to the closed set
`{string, number, boolean, object}`; a temporal cell yields `"object"`
(not `"date"`), and no `"other"` tag is ever produced. -/
theorem c6_datatype_typeof (fid : Nat) (data : List (List JSValue)) :
    ∀ r ∈ extractRecords fid data,
      r.dataType ∈ (["string", "number", "boolean", "object"] : List String) := by
  intro r hr
  obtain ⟨k, -, j, -, hm, hre⟩ :=
    extractRows_mem fid (data.headD []) data.tail 1 r hr
  subst hre
  exact materialize_jsTypeof _ hm

/-- Witness: the amended C6 theorem applied to a one-cell sheet. -/
theorem c6_datatype_typeof_witness :
    (ProcessedRecord.mk 7 2 "H" "a" "string").dataType ∈
      (["string", "number", "boolean", "object"] : List String) :=
  c6_datatype_typeof 7 [[JSValue.str "H"], [JSValue.str "a"]]
    (ProcessedRecord.mk 7 2 "H" "a" "string") (by decide)

/-- C7 counterexample: for the sheet with header `[H]` and a single data
row `[a]`, the emitted record carries `rowNumber = 2`, not `1` as the
claim states for the first data row. -/
theorem c7_counterexample :
    ((extractRecords 1 [[JSValue.str "H"], [JSValue.str "a"]]).map
        (fun r => r.rowNumber) = [2]) ∧
    ¬ ∀ r ∈ extractRecords 1 [[JSValue.str "H"], [JSValue.str "a"]],
        r.rowNumber = 1 := by
  constructor
  · rfl
  · decide

/-- C7 amended: `rowNumber` is 1-based counting the header as row 1:
every record emitted for the `(k+1)`-st data row carries
`rowNumber = (k+1) + 1`; in particular the first data row's records
carry `rowNumber = 2`. -/
theorem c7_rownumber_counts_header (fid : Nat) (data : List (List JSValue)) :
    ∀ r ∈ extractRecords fid data,
      ∃ k, k < data.tail.length ∧ r.rowNumber = (k + 1) + 1 := by
  intro r hr
  obtain ⟨k, hk, j, -, -, hre⟩ :=
    extractRows_mem fid (data.headD []) data.tail 1 r hr
  refine ⟨k, hk, ?_⟩
  subst hre
  simp [mkRec, Nat.add_comm]

/-- Witness: the amended C7 theorem applied to a one-cell sheet and its
emitted record. -/
theorem c7_rownumber_counts_header_witness :
    ∃ k, k < ([[JSValue.str "H"], [JSValue.str "a"]] : List (List JSValue)).tail.length ∧
      (ProcessedRecord.mk 7 2 "H" "a" "string").rowNumber = (k + 1) + 1 :=
  c7_rownumber_counts_header 7 [[JSValue.str "H"], [JSValue.str "a"]]
    (ProcessedRecord.mk 7 2 "H" "a" "string") (by decide)

/-- C10: the extraction's notion of a blank cell is strict equality to
`undefined`, `null` or the empty string; a whitespace-only string, the
number `0` and the boolean `false` are all materialized, with values
`String`-converted to `" "`, `"0"` and `"false"`, while `undefined`,
`null` and `""` cells produce no record. -/
theorem c10_blank_is_strict_triple :
    (∀ v : JSValue, materialize v = true ↔
      (v ≠ JSValue.undef ∧ v ≠ JSValue.jnull ∧ v ≠ JSValue.str "")) ∧
    extractRecords 1 [[JSValue.str "A", JSValue.str "B", JSValue.str "C"],
        [JSValue.str " ", JSValue.num 0, JSValue.bool false]] =
      [ProcessedRecord.mk 1 2 "A" " " "string",
       ProcessedRecord.mk 1 2 "B" "0" "number",
       ProcessedRecord.mk 1 2 "C" "false" "boolean"] ∧
    extractRecords 1 [[JSValue.str "A", JSValue.str "B", JSValue.str "C"],
        [JSValue.undef, JSValue.jnull, JSValue.str ""]] = [] := by
  refine ⟨?_, by decide, by decide⟩
  intro v
  simp [materialize, Bool.and_eq_true, bne_iff_ne, and_assoc]

/-- C2 counterexample: for a source with only a header row and zero data
rows, the worker does not fail — the `NO_DATA_FOUND` guard only fires on
zero total rows — so the job ends `COMPLETED` with `totalRows = 0`
populated, contradicting the claimed `FAILED` status and null
`totalRows`. -/
theorem c2_counterexample :
    (handleExcelJob 1 0 0 none [[JSValue.str "ID", JSValue.str "Name"]]
        pendingStore).1.job.status = FileProcessingStatus.COMPLETED ∧
    (handleExcelJob 1 0 0 none [[JSValue.str "ID", JSValue.str "Name"]]
        pendingStore).1.job.status ≠ FileProcessingStatus.FAILED ∧
    (handleExcelJob 1 0 0 none [[JSValue.str "ID", JSValue.str "Name"]]
        pendingStore).1.job.totalRows = some 0 := by
  refine ⟨rfl, ?_, rfl⟩
  decide

/-- C2 amended: `NO_DATA_FOUND` is raised only when the parsed sheet has
zero rows altogether (no header), leaving the job `FAILED` with
`totalRows` untouched; a source with only a header row and zero data
rows instead completes: the job ends `COMPLETED` with `totalRows = 0`
and no records inserted. -/
theorem c2_nodata_only_on_empty_sheet (fid rc now : Nat)
    (data : List (List JSValue)) (st : Store) :
    (data.length = 0 →
      (handleExcelJob fid rc now none data st).1.job.status = FileProcessingStatus.FAILED ∧
      (handleExcelJob fid rc now none data st).1.job.errorMessage = some NO_DATA_FOUND ∧
      (handleExcelJob fid rc now none data st).1.job.totalRows = st.job.totalRows ∧
      (handleExcelJob fid rc now none data st).2 = Except.error NO_DATA_FOUND) ∧
    (data.length = 1 →
      (handleExcelJob fid rc now none data st).1.job.status = FileProcessingStatus.COMPLETED ∧
      (handleExcelJob fid rc now none data st).1.job.totalRows = some 0 ∧
      (handleExcelJob fid rc now none data st).1.records = st.records) := by
  constructor
  · intro h
    simp [handleExcelJob, h]
  · intro h
    obtain ⟨x, hx⟩ := List.length_eq_one.mp h
    subst hx
    simp [handleExcelJob, progressLoop, extractRecords, extractRows,
      insertBatched, insertBatchedFuel]

/-- Witness: the amended C2 theorem at a concrete header-only sheet. -/
theorem c2_nodata_only_on_empty_sheet_witness :
    (handleExcelJob 1 0 0 none [[JSValue.str "ID"]] pendingStore).1.job.status = FileProcessingStatus.COMPLETED ∧
    (handleExcelJob 1 0 0 none [[JSValue.str "ID"]] pendingStore).1.job.totalRows = some 0 ∧
    (handleExcelJob 1 0 0 none [[JSValue.str "ID"]] pendingStore).1.records = pendingStore.records :=
  (c2_nodata_only_on_empty_sheet 1 0 0 [[JSValue.str "ID"]] pendingStore).2 rfl

/-- C3 counterexample: a job whose first delivery attempt fails (a
checkpoint write throws on an 11-row sheet) and whose redelivery then
succeeds ends `COMPLETED` while `errorMessage` still holds the stale
failure message — the claimed iff between non-null `errorDetail` and
`FAILED` status is violated. -/
theorem c3_counterexample :
    ((handleExcelJob 1 1 5 none (List.replicate 11 [JSValue.str "x"])
        (handleExcelJob 1 0 0 (some "Database error")
          (List.replicate 11 [JSValue.str "x"]) pendingStore).1).1.job.status
      = FileProcessingStatus.COMPLETED) ∧
    ((handleExcelJob 1 1 5 none (List.replicate 11 [JSValue.str "x"])
        (handleExcelJob 1 0 0 (some "Database error")
          (List.replicate 11 [JSValue.str "x"]) pendingStore).1).1.job.errorMessage
      = some "Database error") ∧
    ((handleExcelJob 1 1 5 none (List.replicate 11 [JSValue.str "x"])
        (handleExcelJob 1 0 0 (some "Database error")
          (List.replicate 11 [JSValue.str "x"]) pendingStore).1).1.job.errorMessage
      ≠ none) := by
  refine ⟨rfl, rfl, ?_⟩
  decide

/-- C3 amended: after a handler run, `FAILED` status implies a non-null
`errorMessage`, but not conversely: the success path never clears
`errorMessage`, so a run that completes leaves `errorMessage` exactly as
it was before the run — a job that failed on an earlier delivery attempt
and completes on a later one keeps the stale message under status
`COMPLETED`. -/
theorem c3_failed_implies_error_message (fid rc now : Nat)
    (cpFail : Option String) (data : List (List JSValue)) (st : Store) :
    ((handleExcelJob fid rc now cpFail data st).1.job.status = FileProcessingStatus.FAILED →
      (handleExcelJob fid rc now cpFail data st).1.job.errorMessage ≠ none) ∧
    ((handleExcelJob fid rc now cpFail data st).1.job.status = FileProcessingStatus.COMPLETED →
      (handleExcelJob fid rc now cpFail data st).1.job.errorMessage = st.job.errorMessage) := by
  by_cases h0 : data.length = 0
  · constructor
    · intro _
      simp [handleExcelJob, h0]
    · intro hc
      exfalso
      simp [handleExcelJob, h0] at hc
  · rcases hpl : progressLoop cpFail (data.length - 1) 0 st.job.processedRows
      with ⟨pr, err⟩
    cases err with
    | some msg =>
        constructor
        · intro _
          simp [handleExcelJob, h0, hpl]
        · intro hc
          exfalso
          simp [handleExcelJob, h0, hpl] at hc
    | none =>
        constructor
        · intro hf
          exfalso
          simp [handleExcelJob, h0, hpl] at hf
        · intro _
          simp [handleExcelJob, h0, hpl]

/-- Witness: the amended C3 theorem, failed branch, at the empty sheet
(the `NO_DATA_FOUND` failure). -/
theorem c3_failed_implies_error_message_witness :
    (handleExcelJob 1 0 0 none ([] : List (List JSValue)) pendingStore).1.job.errorMessage ≠ none :=
  (c3_failed_implies_error_message 1 0 0 none [] pendingStore).1 rfl

/-- C4 counterexample: an 11-row sheet (10 data rows) whose extraction
and persistence succeed when every write succeeds, yet when the
checkpoint write throws, the same job ends `FAILED`, not `COMPLETED` —
the checkpoint is not best-effort. -/
theorem c4_counterexample :
    ((handleExcelJob 1 0 0 none (List.replicate 11 [JSValue.str "x"])
        pendingStore).1.job.status = FileProcessingStatus.COMPLETED) ∧
    ((handleExcelJob 1 0 0 (some "Database error")
        (List.replicate 11 [JSValue.str "x"])
        pendingStore).1.job.status = FileProcessingStatus.FAILED) ∧
    ((handleExcelJob 1 0 0 (some "Database error")
        (List.replicate 11 [JSValue.str "x"])
        pendingStore).1.job.status ≠ FileProcessingStatus.COMPLETED) := by
  refine ⟨rfl, rfl, ?_⟩
  decide

/-- C4 amended: a failing progress-checkpoint write aborts the
extraction whenever a checkpoint is attempted (at least 10 data rows):
the job is marked `FAILED` with the write's error message, no records
are inserted, and the error is rethrown to the queue for delivery-level
retry. -/
theorem c4_checkpoint_failure_aborts (fid rc now : Nat) (msg : String)
    (data : List (List JSValue)) (st : Store) (h : 10 ≤ data.length - 1) :
    (handleExcelJob fid rc now (some msg) data st).1.job.status = FileProcessingStatus.FAILED ∧
    (handleExcelJob fid rc now (some msg) data st).1.job.errorMessage = some msg ∧
    (handleExcelJob fid rc now (some msg) data st).1.records = st.records ∧
    (handleExcelJob fid rc now (some msg) data st).2 = Except.error msg := by
  have h0 : ¬ data.length = 0 := by omega
  obtain ⟨m, hm⟩ : ∃ m, data.length - 1 = m + 10 :=
    ⟨data.length - 1 - 10, by omega⟩
  have hpl : progressLoop (some msg) (data.length - 1) 0
      st.job.processedRows = (st.job.processedRows, some msg) := by
    rw [hm]
    exact progressLoop_fail msg 10 m 0 st.job.processedRows (by omega) (by omega)
  simp [handleExcelJob, h0, hpl]

/-- Witness: the amended C4 theorem at a concrete 11-row sheet. -/
theorem c4_checkpoint_failure_aborts_witness :
    (handleExcelJob 1 0 0 (some "Database error") (List.replicate 11 [JSValue.str "x"]) pendingStore).1.job.status = FileProcessingStatus.FAILED ∧
    (handleExcelJob 1 0 0 (some "Database error") (List.replicate 11 [JSValue.str "x"]) pendingStore).1.job.errorMessage = some "Database error" ∧
    (handleExcelJob 1 0 0 (some "Database error") (List.replicate 11 [JSValue.str "x"]) pendingStore).1.records = pendingStore.records ∧
    (handleExcelJob 1 0 0 (some "Database error") (List.replicate 11 [JSValue.str "x"]) pendingStore).2 = Except.error "Database error" :=
  c4_checkpoint_failure_aborts 1 0 0 "Database error"
    (List.replicate 11 [JSValue.str "x"]) pendingStore (by decide)

/-- C8: a job starting `PENDING` whose extraction and persistence
succeed (non-empty parsed sheet, all writes succeed) ends `COMPLETED`
with `totalRows` the source's row count minus the header row,
`processedRows` equal to `totalRows`, and `completedAt` non-null. -/
theorem c8_success_completes (fid rc now : Nat) (data : List (List JSValue))
    (st : Store) (_hp : st.job.status = FileProcessingStatus.PENDING)
    (hne : data ≠ []) :
    (handleExcelJob fid rc now none data st).1.job.status = FileProcessingStatus.COMPLETED ∧
    (handleExcelJob fid rc now none data st).1.job.totalRows = some (data.length - 1) ∧
    (handleExcelJob fid rc now none data st).1.job.processedRows =
      (handleExcelJob fid rc now none data st).1.job.totalRows ∧
    (handleExcelJob fid rc now none data st).1.job.completedAt = some now := by
  have h0 : ¬ data.length = 0 := by
    simpa [List.length_eq_zero] using hne
  rcases hpl : progressLoop none (data.length - 1) 0 st.job.processedRows
    with ⟨pr, err⟩
  have herr : err = none := by
    have h := progressLoop_none (data.length - 1) 0 st.job.processedRows
    rw [hpl] at h
    exact h
  subst herr
  simp [handleExcelJob, h0, hpl]

/-- Witness: C8 at a concrete two-row sheet from the fresh store. -/
theorem c8_success_completes_witness :
    (handleExcelJob 1 0 9 none [[JSValue.str "H"], [JSValue.str "a"]] pendingStore).1.job.status = FileProcessingStatus.COMPLETED ∧
    (handleExcelJob 1 0 9 none [[JSValue.str "H"], [JSValue.str "a"]] pendingStore).1.job.totalRows = some 1 ∧
    (handleExcelJob 1 0 9 none [[JSValue.str "H"], [JSValue.str "a"]] pendingStore).1.job.processedRows =
      (handleExcelJob 1 0 9 none [[JSValue.str "H"], [JSValue.str "a"]] pendingStore).1.job.totalRows ∧
    (handleExcelJob 1 0 9 none [[JSValue.str "H"], [JSValue.str "a"]] pendingStore).1.job.completedAt = some 9 := by
  have h := c8_success_completes 1 0 9 [[JSValue.str "H"], [JSValue.str "a"]]
    pendingStore rfl (by decide)
  simpa using h

/-- C9: the retry endpoint succeeds only from `FAILED` (any other status
yields an error and leaves the store untouched, with nothing enqueued);
on success it deletes all prior records, resets `totalRows`,
`processedRows`, `errorMessage` and `completedAt` to null, sets the
status to `PENDING`, and re-enqueues the job. -/
theorem c9_retry_only_from_failed (st : Store) :
    (st.job.status ≠ FileProcessingStatus.FAILED →
      (retryFileProcessingEndpoint st).store = st ∧
      (retryFileProcessingEndpoint st).enqueued = false ∧
      (retryFileProcessingEndpoint st).error ≠ none) ∧
    (st.job.status = FileProcessingStatus.FAILED →
      (retryFileProcessingEndpoint st).store.records = [] ∧
      (retryFileProcessingEndpoint st).store.job.status = FileProcessingStatus.PENDING ∧
      (retryFileProcessingEndpoint st).store.job.totalRows = none ∧
      (retryFileProcessingEndpoint st).store.job.processedRows = none ∧
      (retryFileProcessingEndpoint st).store.job.errorMessage = none ∧
      (retryFileProcessingEndpoint st).store.job.completedAt = none ∧
      (retryFileProcessingEndpoint st).enqueued = true ∧
      (retryFileProcessingEndpoint st).error = none) := by
  constructor
  · intro h
    simp [retryFileProcessingEndpoint, h]
  · intro h
    simp [retryFileProcessingEndpoint, h]

/-- Witness: C9 at a concrete failed job with one stale record. -/
theorem c9_retry_only_from_failed_witness :
    (retryFileProcessingEndpoint ⟨{ status := FileProcessingStatus.FAILED, errorMessage := some "boom" }, [ProcessedRecord.mk 7 2 "H" "a" "string"]⟩).store.records = [] ∧
    (retryFileProcessingEndpoint ⟨{ status := FileProcessingStatus.FAILED, errorMessage := some "boom" }, [ProcessedRecord.mk 7 2 "H" "a" "string"]⟩).store.job.status = FileProcessingStatus.PENDING ∧
    (retryFileProcessingEndpoint ⟨{ status := FileProcessingStatus.FAILED, errorMessage := some "boom" }, [ProcessedRecord.mk 7 2 "H" "a" "string"]⟩).store.job.totalRows = none ∧
    (retryFileProcessingEndpoint ⟨{ status := FileProcessingStatus.FAILED, errorMessage := some "boom" }, [ProcessedRecord.mk 7 2 "H" "a" "string"]⟩).store.job.processedRows = none ∧
    (retryFileProcessingEndpoint ⟨{ status := FileProcessingStatus.FAILED, errorMessage := some "boom" }, [ProcessedRecord.mk 7 2 "H" "a" "string"]⟩).store.job.errorMessage = none ∧
    (retryFileProcessingEndpoint ⟨{ status := FileProcessingStatus.FAILED, errorMessage := some "boom" }, [ProcessedRecord.mk 7 2 "H" "a" "string"]⟩).store.job.completedAt = none ∧
    (retryFileProcessingEndpoint ⟨{ status := FileProcessingStatus.FAILED, errorMessage := some "boom" }, [ProcessedRecord.mk 7 2 "H" "a" "string"]⟩).enqueued = true ∧
    (retryFileProcessingEndpoint ⟨{ status := FileProcessingStatus.FAILED, errorMessage := some "boom" }, [ProcessedRecord.mk 7 2 "H" "a" "string"]⟩).error = none :=
  (c9_retry_only_from_failed ⟨{ status := FileProcessingStatus.FAILED, errorMessage := some "boom" }, [ProcessedRecord.mk 7 2 "H" "a" "string"]⟩).2 rfl

/-- C1: executing the job handler twice on the same job (redelivery of a
one-data-row sheet) leaves `processedRows` at the true row count, but
inserts the extracted records a second time: the stored
`(rowNumber, columnName)` pairs are `[(2, H), (2, H)]`, no longer
unique — `createMany` neither upserts nor clears prior records. -/
theorem c1_redelivery_duplicates_records :
    (((handleExcelJob 7 1 2 none [[JSValue.str "H"], [JSValue.str "a"]]
        (handleExcelJob 7 0 1 none [[JSValue.str "H"], [JSValue.str "a"]]
          pendingStore).1).1.records.map
        (fun r => (r.rowNumber, r.columnName))) = [(2, "H"), (2, "H")]) ∧
    ¬ (((handleExcelJob 7 1 2 none [[JSValue.str "H"], [JSValue.str "a"]]
        (handleExcelJob 7 0 1 none [[JSValue.str "H"], [JSValue.str "a"]]
          pendingStore).1).1.records.map
        (fun r => (r.rowNumber, r.columnName))).Nodup) ∧
    ((handleExcelJob 7 1 2 none [[JSValue.str "H"], [JSValue.str "a"]]
        (handleExcelJob 7 0 1 none [[JSValue.str "H"], [JSValue.str "a"]]
          pendingStore).1).1.job.processedRows = some 1) := by
  refine ⟨rfl, ?_, rfl⟩
  decide
